import Mathlib

/-!
Verification development for the KTCC tool-changer core
(`src/tool.py`, `src/toollock.py`, `src/toolgroup.py`).

The Python modules are shallowly embedded: each Python object's mutable
fields become fields of explicit state records, methods become pure Lean
functions threading a `World` (the process-wide mutable state plus an
append-only trace of the externally visible commands the code issues),
and Python exceptions become `Except` results that carry the state at
the moment of the raise.  Machine floats that the code manipulates
exactly (timer durations such as `0.1`, the `0.5` clamp, timestamps)
are modelled as `Rat`; temperatures are modelled as `Int` because the
code passes them through `int(...)` at every comparison.

Field and function names follow the source.  G-code hook scripts are
external collaborators; running a hook is recorded as an `Effect` and
is modelled as succeeding (hook script failures abort the surrounding
operation in the source and are outside the claims checked here).
-/

/-- Externally visible commands issued by the core, in order.  Hook
runs (`pickup_gcode`, `dropoff_gcode`, `virtual_toolload_gcode`,
`virtual_toolunload_gcode`) are the four `*Hook` constructors;
`setTemp` is `heater.set_temp`, `tempWait` is the blocking
`TEMPERATURE_WAIT` script, `homeAxes` a `G28` of the listed axes,
`saveVariable` the persistence write done by `SaveCurrentTool`. -/
inductive Effect where
  | pickupHook (tool : Int)
  | dropoffHook (tool : Int)
  | loadVirtualHook (tool : Int)
  | unloadVirtualHook (tool : Int)
  | setTemp (heater : String) (temp : Int)
  | setFanSpeed (fan : String) (speed : Rat)
  | runScript (s : String)
  | tempWait (heater : String) (lo hi : Int)
  | homeAxes (x y z : Bool)
  | saveVariable (key : String) (value : Int)
  deriving DecidableEq, Repr

/-- The static (configuration-time) attributes of one `Tool` object
that the selection and heater code reads.  `physical_parent_id` uses
the source's convention: the tool's own id if it is its own physical
parent, `-1` (TOOL_UNLOCKED) if it has none. -/
structure ToolCfg where
  name : Int
  is_virtual : Bool
  physical_parent_id : Int
  extruder : Option String := none
  fan : Option String := none
  lazy_home_when_parking : Int := 0
  unload_virtual_at_dropoff : Bool := true
  shaper_freq_x : Rat := 0
  shaper_freq_y : Rat := 0
  deriving DecidableEq, Repr

/-- The mutable per-tool fields (`Tool.__init__` defaults shown). -/
structure ToolState where
  heater_state : Int := 0
  heater_active_temp : Int := 0
  heater_standby_temp : Int := 0
  idle_to_standby_time : Rat := 30
  idle_to_powerdown_time : Rat := 600
  virtual_loaded : Int := -1
  deriving DecidableEq, Repr

/-- Mutable state of one `ToolStandbyTempTimer`.  `nextwake = none`
models `reactor.NEVER`; `sched_wake` is the absolute wake time last
passed to `reactor.update_timer`. -/
structure TimerState where
  duration : Rat := 0
  counting_down : Bool := false
  nextwake : Option Rat := none
  sched_wake : Option Rat := none
  inside_timer : Bool := false
  repeat_pending : Bool := false
  last_virtual_tool_using_physical_timer : Option Int := none
  deriving DecidableEq, Repr

structure HomedAxes where
  x : Bool := false
  y : Bool := false
  z : Bool := false
  deriving DecidableEq, Repr

/-- Process-wide mutable state: the `ToolLock` singleton's fields, the
per-tool mutable fields, the two standby timers of every physical
tool (keyed by the owning physical tool id), plus the trace of issued
external commands.  Keyed maps are association lists in which the
first matching key wins; an update conses the new binding. -/
structure World where
  tool_current : Int := -1
  toolStates : List (Int × ToolState) := []
  standbyTimers : List (Int × TimerState) := []
  powerdownTimers : List (Int × TimerState) := []
  tool_map : List (Int × Int) := []
  saved_fan_speed : Rat := 0
  homed : HomedAxes := {}
  restore_axis_on_toolchange : String := ""
  saved_position : Option (List Rat) := none
  effects : List Effect := []
  deriving DecidableEq, Repr

/-- Read-only environment: the reactor clock and the external heater
service (`get_status` temperature/target per heater name), plus the
current G-code position used by `SaveCurrentPosition`. -/
structure Env where
  now : Rat := 0
  measuredTemp : String → Int := fun _ => 0
  targetTemp : String → Int := fun _ => 0
  gcodePosition : List Rat := [0, 0, 0]

/-- The printer's tool registry: the `Tool` objects looked up by
`printer.lookup_object("tool " + str(id))`. -/
abbrev Config := List ToolCfg

def lookupTool (cfg : Config) (id : Int) : Option ToolCfg :=
  cfg.find? (fun t => t.name == id)

def getToolState (l : List (Int × ToolState)) (i : Int) : ToolState :=
  ((l.find? (fun p => p.1 == i)).map Prod.snd).getD {}

def setToolState (l : List (Int × ToolState)) (i : Int) (st : ToolState) :
    List (Int × ToolState) :=
  (i, st) :: l

def getTimerState (l : List (Int × TimerState)) (i : Int) : TimerState :=
  ((l.find? (fun p => p.1 == i)).map Prod.snd).getD {}

def setTimerState (l : List (Int × TimerState)) (i : Int) (ts : TimerState) :
    List (Int × TimerState) :=
  (i, ts) :: l

def emit (e : Effect) (w : World) : World :=
  { w with effects := w.effects ++ [e] }

/-- `ToolLock.SaveCurrentTool`: records the new current tool id and
persists it through the external variable store. -/
def SaveCurrentTool (t : Int) (w : World) : World :=
  { w with tool_current := t
           effects := w.effects ++ [Effect.saveVariable "tool_current" t] }

/-- `ToolLock.SaveCurrentPosition` as delegated to by
`select_tool_actual` (the command-level handler snapshots the current
G-code position and the axis mask). -/
def SaveCurrentPosition (env : Env) (restore_type : String) (w : World) : World :=
  { w with restore_axis_on_toolchange := restore_type
           saved_position := some env.gcodePosition }

/-- `ToolLock.tool_is_remaped`: one lookup in the remap table,
`-1` when the tool is not remapped. -/
def tool_is_remaped (tool_map : List (Int × Int)) (tool_to_check : Int) : Int :=
  (tool_map.lookup tool_to_check).getD (-1)

/-- Which physical tool's `ToolStandbyTempTimer` objects a tool uses:
its physical parent's when it has a distinct valid parent, otherwise
its own (`Tool.__init__`, the timer set-up). -/
def timerOwner (tc : ToolCfg) : Int :=
  if tc.physical_parent_id > -1 ∧ tc.physical_parent_id ≠ tc.name then
    tc.physical_parent_id
  else tc.name

/-- `ToolStandbyTempTimer.set_timer`.  Note the source clamps every
requested duration to the `min_duration_threshold` of `0.5` seconds
before deciding whether the timer should run, so the duration the
rest of the method sees is never `0`. -/
def set_timer (ts : TimerState) (duration : Rat) (actual_tool_calling : Int)
    (now : Rat) : TimerState :=
  let d := max duration (1/2 : Rat)
  let ts := { ts with duration := d
                      last_virtual_tool_using_physical_timer := some actual_tool_calling }
  if ts.inside_timer then
    { ts with repeat_pending := decide (d ≠ 0) }
  else
    let waketime : Option Rat := if d ≠ 0 then some (now + d) else none
    { ts with nextwake := if d ≠ 0 then some (now + d) else ts.nextwake
              sched_wake := waketime
              counting_down := true }

def modifyStandbyTimer (owner : Int) (f : TimerState → TimerState) (w : World) :
    World :=
  { w with standbyTimers :=
      setTimerState w.standbyTimers owner (f (getTimerState w.standbyTimers owner)) }

def modifyPowerdownTimer (owner : Int) (f : TimerState → TimerState) (w : World) :
    World :=
  { w with powerdownTimers :=
      setTimerState w.powerdownTimers owner (f (getTimerState w.powerdownTimers owner)) }

def writeToolState (i : Int) (st : ToolState) (w : World) : World :=
  { w with toolStates := setToolState w.toolStates i st }

/-- The keyword arguments accepted by `Tool.set_heater`. -/
structure SetHeaterArgs where
  heater_state : Option Int := none
  heater_active_temp : Option Int := none
  heater_standby_temp : Option Int := none
  idle_to_standby_time : Option Rat := none
  idle_to_powerdown_time : Option Rat := none
  deriving DecidableEq, Repr

/-- The two conditional `heater.set_temp` pushes of the `kwargs` loop
of `Tool.set_heater` (the timer-duration keys only update fields and
raise `changing_timer`). -/
def set_heater_param_pushes (ext : String) (st0 : ToolState)
    (args : SetHeaterArgs) (w : World) : World :=
  let w := match args.heater_active_temp with
    | some v => if st0.heater_state = 2 then emit (Effect.setTemp ext v) w else w
    | none => w
  match args.heater_standby_temp with
  | some v => if st0.heater_state = 1 then emit (Effect.setTemp ext v) w else w
  | none => w

/-- The re-arm, in `Tool.set_heater`, of still-counting timers when
the tool is already in STANDBY and a timer duration was changed. -/
def set_heater_standby_rearm (env : Env) (tc : ToolCfg) (own : Int)
    (st0 st1 : ToolState) (changing_timer : Bool) (w : World) : World :=
  if st0.heater_state = 1 ∧ changing_timer = true then
    let w :=
      if (getTimerState w.powerdownTimers own).counting_down then
        modifyPowerdownTimer own
          (fun ts => set_timer ts st1.idle_to_powerdown_time tc.name env.now) w
      else w
    if (getTimerState w.standbyTimers own).counting_down then
      modifyStandbyTimer own
        (fun ts => set_timer ts st1.idle_to_standby_time tc.name env.now) w
    else w
  else w

/-- The timer arming and temperature push done by the state-change
branch of `Tool.set_heater` when the state actually changes
(`OFF` / `ACTIVE` / `STANDBY`; any other value only records the new
state). -/
def set_heater_state_change (env : Env) (tc : ToolCfg) (ext : String) (own : Int)
    (st0 st1 : ToolState) (chng_state : Int) (w : World) : World :=
  if chng_state = 0 then
    modifyPowerdownTimer own
      (fun ts => set_timer ts (0.1 : Rat) tc.name env.now)
      (modifyStandbyTimer own
        (fun ts => set_timer ts 0 tc.name env.now) w)
  else if chng_state = 2 then
    emit (Effect.setTemp ext st1.heater_active_temp)
      (modifyPowerdownTimer own
        (fun ts => set_timer ts 0 tc.name env.now)
        (modifyStandbyTimer own
          (fun ts => set_timer ts 0 tc.name env.now) w))
  else if chng_state = 1 then
    if st0.heater_state = 2 ∧ st1.heater_standby_temp < env.measuredTemp ext then
      modifyPowerdownTimer own
        (fun ts => set_timer ts st1.idle_to_powerdown_time tc.name env.now)
        (modifyStandbyTimer own
          (fun ts => set_timer ts st1.idle_to_standby_time tc.name env.now) w)
    else
      modifyPowerdownTimer own
        (fun ts => set_timer ts st1.idle_to_powerdown_time tc.name env.now)
        (modifyStandbyTimer own
          (fun ts => set_timer ts (0.1 : Rat) tc.name env.now) w)
  else w

/-- The per-tool fields after the `kwargs` loop of `Tool.set_heater`
has recorded the supplied temperature and duration parameters. -/
def set_heater_resolved_state (args : SetHeaterArgs) (st0 : ToolState) : ToolState :=
  { st0 with
    heater_active_temp := args.heater_active_temp.getD st0.heater_active_temp
    heater_standby_temp := args.heater_standby_temp.getD st0.heater_standby_temp
    idle_to_standby_time := args.idle_to_standby_time.getD st0.idle_to_standby_time
    idle_to_powerdown_time := args.idle_to_powerdown_time.getD st0.idle_to_powerdown_time }

/-- `Tool.set_heater`.  Parameter updates run first (pushing the new
temperature when the corresponding state is current), then the
standby re-arm of still-counting timers, then the state-change branch
(a no-op transition still pushes the active/standby temperature; an
actual change arms the timers and finally records the new
`heater_state`). -/
def set_heater (env : Env) (tc : ToolCfg) (args : SetHeaterArgs) (w : World) :
    World :=
  match tc.extruder with
  | none => w
  | some ext =>
    let st0 := getToolState w.toolStates tc.name
    let changing_timer :=
      args.idle_to_standby_time.isSome || args.idle_to_powerdown_time.isSome
    let st1 : ToolState := set_heater_resolved_state args st0
    let w := set_heater_param_pushes ext st0 args w
    let own := timerOwner tc
    let w := set_heater_standby_rearm env tc own st0 st1 changing_timer w
    match args.heater_state with
    | none => writeToolState tc.name st1 w
    | some chng_state =>
      if st0.heater_state = chng_state then
        let w :=
          if chng_state = 2 then emit (Effect.setTemp ext st1.heater_active_temp) w
          else if chng_state = 1 then emit (Effect.setTemp ext st1.heater_standby_temp) w
          else w
        writeToolState tc.name st1 w
      else
        writeToolState tc.name { st1 with heater_state := chng_state }
          (set_heater_state_change env tc ext own st0 st1 chng_state w)

/-- Errors surfaced by the selection operations, paired in results
with the world state at the moment of the raise. -/
inductive SErr where
  | invalidState
  | notHomed
  | unknownTool
  | virtualUnreachable
  deriving DecidableEq, Repr

abbrev SResult := Except (SErr × World) World

/-- `ToolLock.PrinterIsHomedForToolchange(lazy_home_when_parking=0)`.
Returns whether a toolchange may proceed; in the lazy cases it first
homes the missing axes (the `G28` is recorded as an effect). -/
def PrinterIsHomedForToolchange (lazy_home_when_parking : Int) (w : World) :
    Bool × World :=
  if w.homed.x ∧ w.homed.y ∧ w.homed.z then (true, w)
  else if lazy_home_when_parking = 0 then (false, w)
  else if lazy_home_when_parking = 1 ∧ w.homed.z = false then (false, w)
  else
    (true,
      { emit (Effect.homeAxes (!w.homed.x) (!w.homed.y) (!w.homed.z)) w with
        homed := { x := true, y := true, z := true } })

/-- `Tool.Pickup`.  The homing check is invoked with no argument, i.e.
with the default `lazy_home_when_parking = 0` of
`PrinterIsHomedForToolchange` — the tool's own
`lazy_home_when_parking` value appears only in the error message. -/
def Pickup (tc : ToolCfg) (w : World) : SResult :=
  match PrinterIsHomedForToolchange 0 w with
  | (false, w1) => Except.error (SErr.notHomed, w1)
  | (true, w1) =>
    let w2 := match tc.extruder with
      | some e => emit (Effect.runScript ("ACTIVATE_EXTRUDER extruder=" ++ e)) w1
      | none => w1
    let w3 := emit (Effect.runScript "G4 P0.2") w2
    let w4 := emit (Effect.pickupHook tc.name) w3
    let w5 := match tc.fan with
      | some f => emit (Effect.setFanSpeed f w4.saved_fan_speed) w4
      | none => w4
    let w6 :=
      if tc.shaper_freq_x ≠ 0 ∨ tc.shaper_freq_y ≠ 0 then
        emit (Effect.runScript "SET_INPUT_SHAPER") w5
      else w5
    Except.ok (SaveCurrentTool tc.name w6)

/-- `Tool.Dropoff(force_virtual_unload=False)`.  When the printer is
not homed the method logs and returns without doing anything (the
homing check again uses the default `lazy = 0`).  The
`force_virtual_unload` argument is never read by the body. -/
def Dropoff (tc : ToolCfg) (force_virtual_unload : Bool) (w : World) : World :=
  let _ := force_virtual_unload
  match PrinterIsHomedForToolchange 0 w with
  | (false, w1) => w1
  | (true, w1) =>
    let w2 := match tc.fan with
      | some f => emit (Effect.setFanSpeed f 0) w1
      | none => w1
    let w3 := emit (Effect.runScript "G4 P0.2") w2
    let w4 := emit (Effect.dropoffHook tc.name) w3
    SaveCurrentTool (-1) w4

/-- `Tool.set_virtual_loaded` on the tool with id `i`. -/
def set_virtual_loaded (i : Int) (value : Int) (w : World) : World :=
  writeToolState i { getToolState w.toolStates i with virtual_loaded := value } w

/-- `Tool.LoadVirtual`: run the load hook, mark this tool resident on
its physical parent, record this tool as current. -/
def LoadVirtual (cfg : Config) (tc : ToolCfg) (w : World) : SResult :=
  let w1 := emit (Effect.loadVirtualHook tc.name) w
  match lookupTool cfg tc.physical_parent_id with
  | none => Except.error (SErr.unknownTool, w1)
  | some pp =>
    Except.ok (SaveCurrentTool tc.name (set_virtual_loaded pp.name tc.name w1))

/-- `Tool.UnloadVirtual`: run the unload hook, clear the parent's
`virtual_loaded`, then (as the source does) save this — just
unloaded — tool's id as the current tool. -/
def UnloadVirtual (cfg : Config) (tc : ToolCfg) (w : World) : SResult :=
  let w1 := emit (Effect.unloadVirtualHook tc.name) w
  match lookupTool cfg tc.physical_parent_id with
  | none => Except.error (SErr.unknownTool, w1)
  | some pp =>
    Except.ok (SaveCurrentTool tc.name (set_virtual_loaded pp.name (-1) w1))

/-- `ToolLock._Temperature_wait_with_tolerance`: reads the named
heater's target; only when it exceeds 40 does it issue the blocking
`TEMPERATURE_WAIT` with bounds target ± tolerance. -/
def Temperature_wait_with_tolerance (env : Env) (curtime : Rat)
    (heater_name : String) (tolerance : Int) (w : World) : World :=
  let _ := curtime
  let target_temp := env.targetTemp heater_name
  if target_temp > 40 then
    emit (Effect.tempWait heater_name (target_temp - tolerance)
            (target_temp + tolerance)) w
  else w

/-- Modelled from the spec: the external `TEMPERATURE_WAIT` script
(ScriptRunner/HeaterService collaborators, not part of this
repository) blocks, repeatedly yielding, until the sensor's
instantaneous temperature lies within `[lo, hi]`.  The sensor is a
temperature trace `Nat → Int`; the wait resumes at the first in-range
sample, searched here from `start` with explicit fuel. -/
def temperatureWaitFirst (temp : Nat → Int) (lo hi : Int) :
    Nat → Nat → Option Nat
  | 0, _ => none
  | Nat.succ fuel, i =>
    if lo ≤ temp i ∧ temp i ≤ hi then some i
    else temperatureWaitFirst temp lo hi fuel (i + 1)

/-- The left operand of the dropoff decision in
`Tool.select_tool_actual`, exactly as the source parenthesises it:
`int(self.physical_parent_id == self.TOOL_UNLOCKED or
self.physical_parent_id)` — Python's `or` returns `True` (then cast
to `1`) when the parent id is the `-1` sentinel, and the parent id
itself otherwise. -/
def dropoffCompareLhs (physical_parent_id : Int) : Int :=
  if physical_parent_id = -1 then 1 else physical_parent_id

def activeStateArgs : SetHeaterArgs := { heater_state := some 2 }

/-- The body of `Tool.select_tool_actual` from the "Drop any tools
already mounted" comment onward, with the `current_tool_id` local
(read before any mutation) passed explicitly. -/
def selectToolCore (cfg : Config) (env : Env) (tc : ToolCfg)
    (current_tool_id : Int) (w : World) : SResult :=
  let step1 : Except (SErr × World) (World × Int) :=
    if current_tool_id > -1 then
      match lookupTool cfg current_tool_id with
      | none => Except.error (SErr.unknownTool, w)
      | some current_tool =>
        if dropoffCompareLhs tc.physical_parent_id ≠ current_tool.physical_parent_id then
          Except.ok (Dropoff current_tool false w, -1)
        else
          match UnloadVirtual cfg current_tool w with
          | Except.ok w2 => Except.ok (w2, current_tool_id)
          | Except.error e => Except.error e
    else Except.ok (w, current_tool_id)
  match step1 with
  | Except.error e => Except.error e
  | Except.ok (w, current2) =>
    if tc.is_virtual = false then
      match Pickup tc w with
      | Except.ok w2 => Except.ok (SaveCurrentTool tc.name w2)
      | Except.error e => Except.error e
    else
      if current2 > -1 then
        match lookupTool cfg current2 with
        | none => Except.error (SErr.unknownTool, w)
        | some current_tool =>
          if tc.physical_parent_id > -1 ∧
              tc.physical_parent_id = current_tool.physical_parent_id then
            match LoadVirtual cfg tc w with
            | Except.ok w2 => Except.ok (SaveCurrentTool tc.name w2)
            | Except.error e => Except.error e
          else Except.error (SErr.virtualUnreachable, w)
      else
        match lookupTool cfg tc.physical_parent_id with
        | none => Except.error (SErr.unknownTool, w)
        | some pp =>
          let pp_virtual_loaded := (getToolState w.toolStates pp.name).virtual_loaded
          match Pickup tc w with
          | Except.error e => Except.error e
          | Except.ok w2 =>
            let step2 : SResult :=
              if pp_virtual_loaded > -1 ∧ pp_virtual_loaded ≠ tc.name then
                match lookupTool cfg pp_virtual_loaded with
                | none => Except.error (SErr.unknownTool, w2)
                | some uv =>
                  let w3 :=
                    if uv.extruder.isSome then
                      let wh := set_heater env uv activeStateArgs w2
                      match tc.extruder with
                      | some ext => Temperature_wait_with_tolerance env env.now ext 2 wh
                      | none => wh
                    else w2
                  match UnloadVirtual cfg uv w3 with
                  | Except.ok w4 => Except.ok (set_heater env tc activeStateArgs w4)
                  | Except.error e => Except.error e
              else Except.ok w2
            match step2 with
            | Except.error e => Except.error e
            | Except.ok w5 =>
              match LoadVirtual cfg tc w5 with
              | Except.ok w6 => Except.ok (SaveCurrentTool tc.name w6)
              | Except.error e => Except.error e

/-- `Tool.select_tool_actual`: the already-selected fast path, the
below-`UNLOCKED` consistency check, the pre-heat of the incoming
tool, the optional position snapshot, then `selectToolCore`. -/
def selectToolActual (cfg : Config) (env : Env) (tc : ToolCfg)
    (restore_mode : Option String) (w : World) : SResult :=
  let current_tool_id := w.tool_current
  if current_tool_id = tc.name then Except.ok w
  else if current_tool_id < -1 then Except.error (SErr.invalidState, w)
  else
    let w1 := if tc.extruder.isSome then set_heater env tc activeStateArgs w else w
    let w2 := match restore_mode with
      | some rm => SaveCurrentPosition env rm w1
      | none => w1
    selectToolCore cfg env tc current_tool_id w2

/-- `Tool.cmd_SelectTool`: one remap lookup; when remapped, the
delegate call goes straight to `select_tool_actual` of the target
tool (never through its own remap-resolving command handler). -/
def cmd_SelectTool (cfg : Config) (env : Env) (tc : ToolCfg)
    (restore_mode : Option String) (w : World) : SResult :=
  let remaped := tool_is_remaped w.tool_map tc.name
  if remaped > -1 then
    match lookupTool cfg remaped with
    | none => Except.error (SErr.unknownTool, w)
    | some remaped_tool => selectToolActual cfg env remaped_tool restore_mode w
  else selectToolActual cfg env tc restore_mode w

def Effect.isHook : Effect → Bool
  | Effect.pickupHook _ => true
  | Effect.dropoffHook _ => true
  | Effect.loadVirtualHook _ => true
  | Effect.unloadVirtualHook _ => true
  | _ => false

/-- The subsequence of G-code hook runs in an effect trace. -/
def hookEvents (es : List Effect) : List Effect :=
  es.filter Effect.isHook

/-- A loaded `ToolGroup` (`toolgroup.py`). -/
structure ToolGroupRec where
  name : Int
  is_virtual : Bool := false
  physical_parent_id : Option Int := none
  lazy_home_when_parking : Int := 0
  meltzonelength : Int := 0
  idle_to_standby_time : Rat := 30
  idle_to_powerdown_time : Rat := 600
  deriving DecidableEq, Repr

/-- `ToolGroup.__init__`: name already parsed to an integer; the
virtual-group and idle-time validations are the only rejections. -/
def ToolGroup.init (name : Int) (is_virtual_cfg : Option Bool)
    (physical_parent_cfg : Option Int) (idle_to_standby_time_cfg : Option Rat)
    (idle_to_powerdown_time_cfg : Option Rat) : Except String ToolGroupRec :=
  let is_virtual := is_virtual_cfg.getD false
  if is_virtual ∧ physical_parent_cfg = none then
    Except.error "A virtual ToolGroup must have a physical_parent defined."
  else
    let t1 := idle_to_standby_time_cfg.getD 30
    if t1 < (0.1 : Rat) then
      Except.error "idle_to_standby_time must be at least 0.1 seconds."
    else
      let t2 := idle_to_powerdown_time_cfg.getD 600
      if t2 < (0.1 : Rat) then
        Except.error "idle_to_powerdown_time must be at least 0.1 seconds."
      else
        Except.ok { name, is_virtual, physical_parent_id := physical_parent_cfg,
                    idle_to_standby_time := t1, idle_to_powerdown_time := t2 }

/-- The configuration section of one `[tool N]` as `Tool.__init__`
reads it: the section name already parsed to the integer `name`,
coordinate strings already split at commas. `none` means the key is
absent and the inheritance default applies. -/
structure ToolInitConfig where
  name : Int
  tool_group : Int
  physical_parent : Option Int := none
  is_virtual : Option Bool := none
  zone : Option (List String) := none
  park : Option (List String) := none
  offset : Option (List String) := none
  deriving DecidableEq, Repr

/-- A `Tool` object previously registered with the printer, as the
physical-parent lookup `printer.lookup_object("tool " + str(id))`
would find it. -/
structure ToolRec where
  name : Int
  is_virtual : Bool
  physical_parent_id : Option Int
  cached_physical_parent_id : Int
  zone : List String
  park : List String
  offset : List String
  deriving DecidableEq, Repr

/-- `Tool.__init__`, embedded through the points that decide whether a
configuration is accepted.  In this source the constructor cannot
complete for any tool:

* when the cached physical parent id is the tool's own id or the
  `UNLOCKED` sentinel, the else-branch builds the dummy placeholder
  `self.pp = Tool()`; the argument-less constructor runs
  `config.get_printer()` on `None` (the constructor has no
  config-is-None guard), so configuration load aborts there with an
  `AttributeError`;
* when the cached parent id names a distinct tool that is not
  registered, `lookup_object` raises;
* any tool that survives the parent step aborts at the
  `##### Is Virtual #####` assignment, whose default argument reads
  the undefined name `tg_status` (a `NameError`).

The virtual-without-parent sanity check between those last two points
reads `self.is_virtual` before it is assigned — it still sees the
constructor value `None`, which is falsy — so the check can reject
nothing (`is_virtual_at_check` below); every later line of the
constructor (coordinate parsing, timers, templates) is unreachable. -/
def Tool.init (groups : List ToolGroupRec) (tools : List ToolRec)
    (c : ToolInitConfig) : Except String ToolRec :=
  match groups.find? (fun g => g.name == c.tool_group) with
  | none => Except.error "ToolGroup is not defined. It must be configured before the tool."
  | some tg =>
    let physical_parent_id : Option Int :=
      match c.physical_parent with
      | some v => some v
      | none => tg.physical_parent_id
    let cached := physical_parent_id.getD (-1)
    if 0 ≤ cached ∧ cached ≠ c.name then
      match tools.find? (fun t => t.name == cached) with
      | none => Except.error "lookup_object: physical parent tool not registered"
      | some _pp =>
        let is_virtual_at_check := false
        if is_virtual_at_check ∧ cached = -1 then
          Except.error "Section Tool cannot be virtual without a valid physical_parent."
        else
          Except.error "NameError: tg_status is not defined"
    else
      Except.error "AttributeError: NoneType object has no attribute get_printer"

/-! Concrete scenarios used by the witnesses and counterexamples. -/

def env0 : Env := {}

def homedAll : HomedAxes := { x := true, y := true, z := true }

/- C1: two virtual tools T0, T1 on the physical parent T2. -/

def c1A : ToolCfg := { name := 0, is_virtual := true, physical_parent_id := 2 }

def c1B : ToolCfg := { name := 1, is_virtual := true, physical_parent_id := 2 }

def c1P : ToolCfg := { name := 2, is_virtual := false, physical_parent_id := 2 }

def cfg1 : Config := [c1A, c1B, c1P]

def c1w0 : World := { homed := homedAll }

def c1w1 : World := (selectToolActual cfg1 env0 c1A none c1w0).toOption.getD c1w0

/- C2: current tool T0 is virtual on physical parent T1; tool T5 is a
physical tool with no parent (`physical_parent_id = -1`). -/

def c2A : ToolCfg := { name := 0, is_virtual := true, physical_parent_id := 1 }

def c2P1 : ToolCfg := { name := 1, is_virtual := false, physical_parent_id := 1 }

def c2B : ToolCfg := { name := 5, is_virtual := false, physical_parent_id := -1 }

def cfg2 : Config := [c2A, c2P1, c2B]

def c2w : World :=
  { tool_current := 0, homed := homedAll,
    toolStates := [(1, { virtual_loaded := 0 })] }

def c2w' : World := (selectToolActual cfg2 env0 c2B none c2w).toOption.getD c2w

/- C3: a physical tool T0 with an extruder, heater OFF, both of its
timers idle (`counting_down = false`, wake `NEVER`). -/

def c3tool : ToolCfg :=
  { name := 0, is_virtual := false, physical_parent_id := 0,
    extruder := some "extruder" }

def env3 : Env := { now := 100 }

def c3w : World := { toolStates := [(0, { heater_active_temp := 210 })] }

def c3w' : World := set_heater env3 c3tool { heater_state := some 2 } c3w

/- C4 / C5 witnesses. -/

def c4tool : ToolCfg := { name := 9, is_virtual := false, physical_parent_id := 9 }

def c4w : World := { tool_current := 9 }

def c5tool : ToolCfg := { name := 0, is_virtual := false, physical_parent_id := 0 }

def c5w : World := { tool_current := -2 }

/- C6: remap table {1 → 2, 2 → 3}. -/

def c6t1 : ToolCfg := { name := 1, is_virtual := false, physical_parent_id := 1 }

def c6t2 : ToolCfg := { name := 2, is_virtual := false, physical_parent_id := 2 }

def c6t3 : ToolCfg := { name := 3, is_virtual := false, physical_parent_id := 3 }

def cfg6 : Config := [c6t1, c6t2, c6t3]

def c6w : World := { tool_map := [(1, 2), (2, 3)], homed := homedAll }

def c6w' : World := (cmd_SelectTool cfg6 env0 c6t1 none c6w).toOption.getD c6w

/- C7: a tool declared virtual whose physical parent is itself. -/

def groups7 : List ToolGroupRec := [{ name := 0 }]

def cfg7 : ToolInitConfig :=
  { name := 2, tool_group := 0, physical_parent := some 2,
    is_virtual := some true, zone := some ["0", "0", "0"],
    park := some ["0", "0", "0"], offset := some ["0", "0", "0"] }

/- C8: a tool whose per-tool lazy-home policy is `1`, on a machine
with only Z homed (a state the lazy policy would accept by homing X
and Y). -/

def c8tool : ToolCfg :=
  { name := 7, is_virtual := false, physical_parent_id := 7,
    lazy_home_when_parking := 1 }

def c8w : World := { homed := { z := true } }

/- C9: a heater with a set target of 35 °C (≤ 40) and an instantaneous
temperature far outside the tolerance band. -/

def env9 : Env := { measuredTemp := fun _ => 10, targetTemp := fun _ => 35 }

def w9 : World := {}

def env9b : Env := { targetTemp := fun _ => 200 }

/-! Projection lemmas for the state primitives. -/

@[simp] theorem emit_tool_current (e : Effect) (w : World) :
    (emit e w).tool_current = w.tool_current := rfl

@[simp] theorem emit_toolStates (e : Effect) (w : World) :
    (emit e w).toolStates = w.toolStates := rfl

@[simp] theorem emit_standbyTimers (e : Effect) (w : World) :
    (emit e w).standbyTimers = w.standbyTimers := rfl

@[simp] theorem emit_powerdownTimers (e : Effect) (w : World) :
    (emit e w).powerdownTimers = w.powerdownTimers := rfl

@[simp] theorem emit_tool_map (e : Effect) (w : World) :
    (emit e w).tool_map = w.tool_map := rfl

@[simp] theorem emit_homed (e : Effect) (w : World) :
    (emit e w).homed = w.homed := rfl

@[simp] theorem emit_saved_fan_speed (e : Effect) (w : World) :
    (emit e w).saved_fan_speed = w.saved_fan_speed := rfl

@[simp] theorem emit_effects (e : Effect) (w : World) :
    (emit e w).effects = w.effects ++ [e] := rfl

@[simp] theorem SaveCurrentTool_tool_current (t : Int) (w : World) :
    (SaveCurrentTool t w).tool_current = t := rfl

@[simp] theorem SaveCurrentTool_toolStates (t : Int) (w : World) :
    (SaveCurrentTool t w).toolStates = w.toolStates := rfl

@[simp] theorem SaveCurrentTool_standbyTimers (t : Int) (w : World) :
    (SaveCurrentTool t w).standbyTimers = w.standbyTimers := rfl

@[simp] theorem SaveCurrentTool_powerdownTimers (t : Int) (w : World) :
    (SaveCurrentTool t w).powerdownTimers = w.powerdownTimers := rfl

@[simp] theorem SaveCurrentTool_homed (t : Int) (w : World) :
    (SaveCurrentTool t w).homed = w.homed := rfl

@[simp] theorem SaveCurrentTool_effects (t : Int) (w : World) :
    (SaveCurrentTool t w).effects
      = w.effects ++ [Effect.saveVariable "tool_current" t] := rfl

@[simp] theorem writeToolState_tool_current (i : Int) (st : ToolState) (w : World) :
    (writeToolState i st w).tool_current = w.tool_current := rfl

@[simp] theorem writeToolState_effects (i : Int) (st : ToolState) (w : World) :
    (writeToolState i st w).effects = w.effects := rfl

@[simp] theorem writeToolState_toolStates (i : Int) (st : ToolState) (w : World) :
    (writeToolState i st w).toolStates = setToolState w.toolStates i st := rfl

@[simp] theorem writeToolState_homed (i : Int) (st : ToolState) (w : World) :
    (writeToolState i st w).homed = w.homed := rfl

@[simp] theorem writeToolState_standbyTimers (i : Int) (st : ToolState) (w : World) :
    (writeToolState i st w).standbyTimers = w.standbyTimers := rfl

@[simp] theorem writeToolState_powerdownTimers (i : Int) (st : ToolState) (w : World) :
    (writeToolState i st w).powerdownTimers = w.powerdownTimers := rfl

@[simp] theorem modifyStandbyTimer_tool_current (o : Int) (f : TimerState → TimerState)
    (w : World) : (modifyStandbyTimer o f w).tool_current = w.tool_current := rfl

@[simp] theorem modifyStandbyTimer_toolStates (o : Int) (f : TimerState → TimerState)
    (w : World) : (modifyStandbyTimer o f w).toolStates = w.toolStates := rfl

@[simp] theorem modifyStandbyTimer_effects (o : Int) (f : TimerState → TimerState)
    (w : World) : (modifyStandbyTimer o f w).effects = w.effects := rfl

@[simp] theorem modifyStandbyTimer_homed (o : Int) (f : TimerState → TimerState)
    (w : World) : (modifyStandbyTimer o f w).homed = w.homed := rfl

@[simp] theorem modifyPowerdownTimer_tool_current (o : Int) (f : TimerState → TimerState)
    (w : World) : (modifyPowerdownTimer o f w).tool_current = w.tool_current := rfl

@[simp] theorem modifyPowerdownTimer_toolStates (o : Int) (f : TimerState → TimerState)
    (w : World) : (modifyPowerdownTimer o f w).toolStates = w.toolStates := rfl

@[simp] theorem modifyPowerdownTimer_effects (o : Int) (f : TimerState → TimerState)
    (w : World) : (modifyPowerdownTimer o f w).effects = w.effects := rfl

@[simp] theorem modifyPowerdownTimer_homed (o : Int) (f : TimerState → TimerState)
    (w : World) : (modifyPowerdownTimer o f w).homed = w.homed := rfl

@[simp] theorem getToolState_set_same (l : List (Int × ToolState)) (i : Int)
    (st : ToolState) : getToolState (setToolState l i st) i = st := by
  simp [getToolState, setToolState, List.find?]

@[simp] theorem getToolState_set_ne (l : List (Int × ToolState)) (i j : Int)
    (st : ToolState) (h : j ≠ i) :
    getToolState (setToolState l i st) j = getToolState l j := by
  have hij : (i == j) = false := by simpa using Ne.symm h
  simp [getToolState, setToolState, List.find?, hij]

@[simp] theorem hookEvents_nil : hookEvents [] = [] := rfl

@[simp] theorem hookEvents_append (a b : List Effect) :
    hookEvents (a ++ b) = hookEvents a ++ hookEvents b := by
  simp [hookEvents, List.filter_append]

@[simp] theorem hookEvents_pickupHook (t : Int) :
    hookEvents [Effect.pickupHook t] = [Effect.pickupHook t] := rfl

@[simp] theorem hookEvents_dropoffHook (t : Int) :
    hookEvents [Effect.dropoffHook t] = [Effect.dropoffHook t] := rfl

@[simp] theorem hookEvents_loadVirtualHook (t : Int) :
    hookEvents [Effect.loadVirtualHook t] = [Effect.loadVirtualHook t] := rfl

@[simp] theorem hookEvents_unloadVirtualHook (t : Int) :
    hookEvents [Effect.unloadVirtualHook t] = [Effect.unloadVirtualHook t] := rfl

@[simp] theorem hookEvents_setTemp (h : String) (t : Int) :
    hookEvents [Effect.setTemp h t] = [] := rfl

@[simp] theorem hookEvents_setFanSpeed (f : String) (s : Rat) :
    hookEvents [Effect.setFanSpeed f s] = [] := rfl

@[simp] theorem hookEvents_runScript (s : String) :
    hookEvents [Effect.runScript s] = [] := rfl

@[simp] theorem hookEvents_tempWait (h : String) (lo hi : Int) :
    hookEvents [Effect.tempWait h lo hi] = [] := rfl

@[simp] theorem hookEvents_homeAxes (x y z : Bool) :
    hookEvents [Effect.homeAxes x y z] = [] := rfl

@[simp] theorem hookEvents_saveVariable (k : String) (v : Int) :
    hookEvents [Effect.saveVariable k v] = [] := rfl

theorem lookupTool_name {cfg : Config} {i : Int} {t : ToolCfg}
    (h : lookupTool cfg i = some t) : t.name = i := by
  have := List.find?_some h
  simpa using this

/-- Frame facts for a single `set_heater` stage: the world changes
only in heater-related places (timers, `setTemp` effects, the acting
tool's heater fields). -/
def HeaterFrame (w w' : World) : Prop :=
  w'.tool_current = w.tool_current
  ∧ hookEvents w'.effects = hookEvents w.effects
  ∧ w'.toolStates = w.toolStates
  ∧ w'.homed = w.homed

theorem HeaterFrame.refl (w : World) : HeaterFrame w w :=
  ⟨Eq.refl _, Eq.refl _, Eq.refl _, Eq.refl _⟩

theorem HeaterFrame.trans {w1 w2 w3 : World} (h1 : HeaterFrame w1 w2)
    (h2 : HeaterFrame w2 w3) : HeaterFrame w1 w3 := by
  obtain ⟨a1, b1, c1, d1⟩ := h1
  obtain ⟨a2, b2, c2, d2⟩ := h2
  exact ⟨a2.trans a1, b2.trans b1, c2.trans c1, d2.trans d1⟩

@[simp] theorem isHook_setTemp (h : String) (t : Int) :
    Effect.isHook (Effect.setTemp h t) = false := rfl

@[simp] theorem isHook_setFanSpeed (f : String) (s : Rat) :
    Effect.isHook (Effect.setFanSpeed f s) = false := rfl

@[simp] theorem isHook_runScript (s : String) :
    Effect.isHook (Effect.runScript s) = false := rfl

@[simp] theorem isHook_tempWait (h : String) (lo hi : Int) :
    Effect.isHook (Effect.tempWait h lo hi) = false := rfl

@[simp] theorem isHook_homeAxes (x y z : Bool) :
    Effect.isHook (Effect.homeAxes x y z) = false := rfl

@[simp] theorem isHook_saveVariable (k : String) (v : Int) :
    Effect.isHook (Effect.saveVariable k v) = false := rfl

@[simp] theorem isHook_pickupHook (t : Int) :
    Effect.isHook (Effect.pickupHook t) = true := rfl

@[simp] theorem isHook_dropoffHook (t : Int) :
    Effect.isHook (Effect.dropoffHook t) = true := rfl

@[simp] theorem isHook_loadVirtualHook (t : Int) :
    Effect.isHook (Effect.loadVirtualHook t) = true := rfl

@[simp] theorem isHook_unloadVirtualHook (t : Int) :
    Effect.isHook (Effect.unloadVirtualHook t) = true := rfl

@[simp] theorem hookEvents_cons (e : Effect) (l : List Effect) :
    hookEvents (e :: l)
      = if Effect.isHook e = true then e :: hookEvents l else hookEvents l := by
  simp [hookEvents, List.filter_cons]

theorem set_heater_param_pushes_frame (ext : String) (st0 : ToolState)
    (args : SetHeaterArgs) (w : World) :
    HeaterFrame w (set_heater_param_pushes ext st0 args w) := by
  obtain ⟨hs, hat, hst, its, itp⟩ := args
  cases hat <;> cases hst <;>
    simp only [set_heater_param_pushes] <;>
    first
      | (split_ifs <;> simp [HeaterFrame])
      | simp [HeaterFrame]

theorem set_heater_standby_rearm_frame (env : Env) (tc : ToolCfg) (own : Int)
    (st0 st1 : ToolState) (changing_timer : Bool) (w : World) :
    HeaterFrame w (set_heater_standby_rearm env tc own st0 st1 changing_timer w) := by
  simp only [set_heater_standby_rearm]
  split_ifs <;> simp [HeaterFrame]

theorem set_heater_state_change_frame (env : Env) (tc : ToolCfg) (ext : String)
    (own : Int) (st0 st1 : ToolState) (chng_state : Int) (w : World) :
    HeaterFrame w (set_heater_state_change env tc ext own st0 st1 chng_state w) := by
  simp only [set_heater_state_change]
  split_ifs <;> simp [HeaterFrame]

/-- `set_heater` never runs a hook, never touches the current-tool id,
and never changes any tool's `virtual_loaded` field: it only updates
heater fields, timers and `setTemp` effects. -/
theorem set_heater_frame (env : Env) (tc : ToolCfg) (args : SetHeaterArgs)
    (w : World) :
    (set_heater env tc args w).tool_current = w.tool_current
    ∧ hookEvents (set_heater env tc args w).effects = hookEvents w.effects
    ∧ (∀ i, (getToolState (set_heater env tc args w).toolStates i).virtual_loaded
        = (getToolState w.toolStates i).virtual_loaded)
    ∧ (set_heater env tc args w).homed = w.homed := by
  cases hext : tc.extruder with
  | none => simp [set_heater, hext]
  | some ext =>
    simp only [set_heater, hext]
    set st0 := getToolState w.toolStates tc.name with hst0
    set st1 := set_heater_resolved_state args st0 with hst1
    set ctm := (args.idle_to_standby_time.isSome || args.idle_to_powerdown_time.isSome)
      with hctm
    set wp := set_heater_param_pushes ext st0 args w with hwp
    set wr := set_heater_standby_rearm env tc (timerOwner tc) st0 st1 ctm wp with hwr
    have hp : HeaterFrame w wp := by
      rw [hwp]; exact set_heater_param_pushes_frame ext st0 args w
    have hr : HeaterFrame wp wr := by
      rw [hwr]; exact set_heater_standby_rearm_frame env tc (timerOwner tc) st0 st1 ctm wp
    obtain ⟨hc, he, hts, hh⟩ := hp.trans hr
    have hvl : st1.virtual_loaded = (getToolState w.toolStates tc.name).virtual_loaded := by
      rw [hst1, hst0]; rfl
    cases hhs : args.heater_state with
    | none =>
      dsimp only
      refine ⟨by simpa using hc, by simpa using he, ?_, by simpa using hh⟩
      intro i
      by_cases hi : i = tc.name
      · subst hi; simp [hvl]
      · simp [hi, hts]
    | some chng_state =>
      dsimp only
      by_cases hch : st0.heater_state = chng_state
      · rw [if_pos hch]
        split_ifs <;>
          · refine ⟨by simpa using hc, by simpa using he, ?_, by simpa using hh⟩
            intro i
            by_cases hi : i = tc.name
            · subst hi; simp [hvl]
            · simp [hi, hts]
      · rw [if_neg hch]
        obtain ⟨hc2, he2, hts2, hh2⟩ :=
          set_heater_state_change_frame env tc ext (timerOwner tc) st0 st1 chng_state wr
        refine ⟨by simp [hc2, hc], by simp [he2, he], ?_, by simp [hh2, hh]⟩
        intro i
        by_cases hi : i = tc.name
        · subst hi; simp [hts2, hvl]
        · simp [hi, hts2, hts]

@[simp] theorem set_virtual_loaded_tool_current (i v : Int) (w : World) :
    (set_virtual_loaded i v w).tool_current = w.tool_current := rfl

@[simp] theorem set_virtual_loaded_effects (i v : Int) (w : World) :
    (set_virtual_loaded i v w).effects = w.effects := rfl

@[simp] theorem set_virtual_loaded_homed (i v : Int) (w : World) :
    (set_virtual_loaded i v w).homed = w.homed := rfl

@[simp] theorem set_virtual_loaded_toolStates (i v : Int) (w : World) :
    (set_virtual_loaded i v w).toolStates
      = setToolState w.toolStates i
          { getToolState w.toolStates i with virtual_loaded := v } := rfl

/-- Every successful exit of the selection core records the selected
tool as current (all success paths end in `SaveCurrentTool`). -/
theorem selectToolCore_ok_tool_current {cfg : Config} {env : Env} {tc : ToolCfg}
    {cur : Int} {w w' : World}
    (h : selectToolCore cfg env tc cur w = Except.ok w') :
    w'.tool_current = tc.name := by
  simp only [selectToolCore] at h
  repeat' split at h
  all_goals simp_all
  all_goals (rw [← h]; simp)

/-- Every successful `select_tool_actual` leaves the selected tool as
the lock's current tool. -/
theorem select_ok_tool_current {cfg : Config} {env : Env} {tc : ToolCfg}
    {r : Option String} {w w' : World}
    (h : selectToolActual cfg env tc r w = Except.ok w') :
    w'.tool_current = tc.name := by
  simp only [selectToolActual] at h
  repeat' split at h
  all_goals
    first
      | exact selectToolCore_ok_tool_current h
      | simp_all

/-- When the mounted tool `A` and the incoming virtual tool `B` share
the valid physical parent `P`, the selection core takes the
UnloadVirtual-then-LoadVirtual path and produces exactly this state. -/
theorem selectToolCore_swap (cfg : Config) (env : Env) (A B Pc : ToolCfg)
    (P : Int)
    (hA : lookupTool cfg A.name = some A)
    (hP : lookupTool cfg P = some Pc)
    (hApp : A.physical_parent_id = P)
    (hBpp : B.physical_parent_id = P)
    (hP0 : 0 ≤ P)
    (hA0 : 0 ≤ A.name)
    (hBv : B.is_virtual = true)
    (t : World) :
    selectToolCore cfg env B A.name t =
      Except.ok (SaveCurrentTool B.name
        (SaveCurrentTool B.name
          (set_virtual_loaded Pc.name B.name
            (emit (Effect.loadVirtualHook B.name)
              (SaveCurrentTool A.name
                (set_virtual_loaded Pc.name (-1)
                  (emit (Effect.unloadVirtualHook A.name) t))))))) := by
  have h1 : A.name > -1 := by omega
  have h2 : P > -1 := by omega
  have h3 : dropoffCompareLhs P = P := by
    unfold dropoffCompareLhs
    rw [if_neg (by omega)]
  simp [selectToolCore, UnloadVirtual, LoadVirtual, hA, hP, hApp, hBpp, hBv,
    h1, h2, h3]

/-- C1: for two virtual tools A and B sharing the same physical parent
P, `SelectTool(A)` followed by `SelectTool(B)` runs no Dropoff and no
Pickup hook on P during the switch: the second selection's hook trace
is exactly UnloadVirtual(A) then LoadVirtual(B), and afterwards P's
`virtual_loaded` equals B's id and the lock's current tool id equals
B. -/
theorem c1_same_parent_swap (cfg : Config) (env : Env) (A B Pc : ToolCfg)
    (P : Int)
    (hA : lookupTool cfg A.name = some A)
    (hP : lookupTool cfg P = some Pc)
    (hApp : A.physical_parent_id = P)
    (hBpp : B.physical_parent_id = P)
    (hP0 : 0 ≤ P)
    (hA0 : 0 ≤ A.name)
    (hAv : A.is_virtual = true)
    (hBv : B.is_virtual = true)
    (hAB : A.name ≠ B.name)
    (r0 : Option String) (w0 w1 : World)
    (hsel : selectToolActual cfg env A r0 w0 = Except.ok w1) :
    ∃ w2, selectToolActual cfg env B none w1 = Except.ok w2
      ∧ hookEvents w2.effects
          = hookEvents w1.effects
            ++ [Effect.unloadVirtualHook A.name, Effect.loadVirtualHook B.name]
      ∧ (getToolState w2.toolStates P).virtual_loaded = B.name
      ∧ w2.tool_current = B.name := by
  have hcur : w1.tool_current = A.name := select_ok_tool_current hsel
  have hPname : Pc.name = P := lookupTool_name hP
  simp only [selectToolActual, hcur]
  rw [if_neg hAB, if_neg (by omega : ¬ A.name < -1)]
  cases hBe : B.extruder with
  | none =>
    simp only [hBe, Option.isSome_none, Bool.false_eq_true, if_false]
    refine ⟨_, selectToolCore_swap cfg env A B Pc P hA hP hApp hBpp hP0 hA0 hBv w1,
      ?_, ?_, ?_⟩
    · simp
    · rw [hPname]; simp
    · simp
  | some e =>
    simp only [hBe, Option.isSome_some, if_true]
    obtain ⟨fc, fe, fts, fh⟩ := set_heater_frame env B activeStateArgs w1
    refine ⟨_, selectToolCore_swap cfg env A B Pc P hA hP hApp hBpp hP0 hA0 hBv
      (set_heater env B activeStateArgs w1), ?_, ?_, ?_⟩
    · simp [fe]
    · rw [hPname]; simp
    · simp

/-- C1 witness: the concrete three-tool configuration with virtual T0
and T1 on physical parent T2, after a successful `SelectTool(T0)`
from the unlocked state. -/
theorem c1_same_parent_swap_witness :
    ∃ w2, selectToolActual cfg1 env0 c1B none c1w1 = Except.ok w2
      ∧ hookEvents w2.effects
          = hookEvents c1w1.effects
            ++ [Effect.unloadVirtualHook c1A.name, Effect.loadVirtualHook c1B.name]
      ∧ (getToolState w2.toolStates 2).virtual_loaded = c1B.name
      ∧ w2.tool_current = c1B.name :=
  c1_same_parent_swap cfg1 env0 c1A c1B c1P 2 (by decide) (by decide) (by decide)
    (by decide) (by decide) (by decide) (by decide) (by decide) (by decide)
    none c1w0 c1w1 (by rfl)

/-- C4: selecting the tool that is already the current tool (after
remap resolution, i.e. at the `select_tool_actual` level) is a no-op:
the call succeeds and returns the world completely unchanged — no
hook, no heater command, no state mutation of any kind. -/
theorem c4_select_idempotent (cfg : Config) (env : Env) (tc : ToolCfg)
    (r : Option String) (w : World)
    (hcur : w.tool_current = tc.name) :
    selectToolActual cfg env tc r w = Except.ok w := by
  simp [selectToolActual, hcur]

theorem c4_select_idempotent_witness :
    c4w.tool_current = c4tool.name
    ∧ selectToolActual [c4tool] env0 c4tool none c4w = Except.ok c4w :=
  ⟨by decide, c4_select_idempotent [c4tool] env0 c4tool none c4w (by decide)⟩

/-- C5: when the lock's current tool id is below the `UNLOCKED`
sentinel (-1), selecting any (real, non-negatively numbered) tool
fails with the invalid-state error, and the world returned with the
error is the input world — nothing ran and nothing was mutated. -/
theorem c5_unknown_mounted_rejected (cfg : Config) (env : Env) (tc : ToolCfg)
    (r : Option String) (w : World)
    (hcur : w.tool_current < -1)
    (hname : 0 ≤ tc.name) :
    selectToolActual cfg env tc r w = Except.error (SErr.invalidState, w) := by
  simp only [selectToolActual]
  rw [if_neg (by omega : ¬ w.tool_current = tc.name),
    if_pos (by omega : w.tool_current < -1)]

theorem c5_unknown_mounted_rejected_witness :
    c5w.tool_current < -1 ∧ (0 : Int) ≤ c5tool.name
    ∧ selectToolActual [c5tool] env0 c5tool none c5w
        = Except.error (SErr.invalidState, c5w) :=
  ⟨by decide, by decide,
    c5_unknown_mounted_rejected [c5tool] env0 c5tool none c5w (by decide) (by decide)⟩

/-- C6: remap resolution is single-hop.  With the remap table
{1 → 2, 2 → 3}, a select request for tool 1 resolves once to tool 2
and mounts tool 2 — the delegate call goes straight to
`select_tool_actual`, so the 2 → 3 entry is never consulted. -/
theorem c6_remap_single_hop (cfg : Config) (env : Env) (r : Option String)
    (w w' : World) (t1 t2 : ToolCfg)
    (hmap : w.tool_map = [(1, 2), (2, 3)])
    (hn1 : t1.name = 1)
    (h2 : lookupTool cfg 2 = some t2)
    (hsel : cmd_SelectTool cfg env t1 r w = Except.ok w') :
    w'.tool_current = 2 ∧ w'.tool_current ≠ 3 := by
  have hn2 : t2.name = 2 := lookupTool_name h2
  simp only [cmd_SelectTool, hmap, hn1] at hsel
  have hm : tool_is_remaped [(1, 2), (2, 3)] 1 = 2 := by decide
  rw [hm] at hsel
  simp only [show ((2 : Int) > -1) = True by simp, if_true, h2] at hsel
  have := select_ok_tool_current hsel
  rw [hn2] at this
  exact ⟨this, by omega⟩

theorem c6_remap_single_hop_witness :
    c6w.tool_map = [(1, 2), (2, 3)] ∧ c6t1.name = 1
    ∧ (cmd_SelectTool cfg6 env0 c6t1 none c6w = Except.ok c6w'
        ∧ c6w'.tool_current = 2 ∧ c6w'.tool_current ≠ 3) :=
  ⟨rfl, rfl, rfl,
    c6_remap_single_hop cfg6 env0 none c6w c6w' c6t1 c6t2 rfl rfl (by decide) (by rfl)⟩

/-- C7: configuration load rejects any tool declared virtual whose
physical parent is itself — equivalently, no tool accepted at load
has `physical_parent_id` equal to its own id while being virtual,
since no such tool is ever accepted.  In this source the rejection is
the abort in the self-referential dummy-parent branch: with the
cached parent id equal to the tool's own id, `self.pp = Tool()` runs
`config.get_printer()` on `None` and configuration load fails before
`is_virtual` is ever assigned (and before the sanity check, which
could not fire anyway). -/
theorem c7_self_parent_virtual_rejected (groups : List ToolGroupRec)
    (tools : List ToolRec) (c : ToolInitConfig) (tg : ToolGroupRec)
    (hg : groups.find? (fun g => g.name == c.tool_group) = some tg)
    (hv : c.is_virtual = some true)
    (hpp : c.physical_parent = some c.name) :
    Tool.init groups tools c
      = Except.error "AttributeError: NoneType object has no attribute get_printer"
    ∧ ∀ r : ToolRec, Tool.init groups tools c ≠ Except.ok r := by
  have h1 : Tool.init groups tools c
      = Except.error "AttributeError: NoneType object has no attribute get_printer" := by
    simp [Tool.init, hg, hpp]
  exact ⟨h1, fun r hr => by rw [h1] at hr; cases hr⟩

theorem c7_self_parent_virtual_rejected_witness :
    groups7.find? (fun g => g.name == cfg7.tool_group) = some { name := 0 }
    ∧ cfg7.is_virtual = some true
    ∧ cfg7.physical_parent = some cfg7.name
    ∧ (Tool.init groups7 [] cfg7
        = Except.error "AttributeError: NoneType object has no attribute get_printer"
      ∧ ∀ r : ToolRec, Tool.init groups7 [] cfg7 ≠ Except.ok r) :=
  ⟨by decide, by decide, by decide,
    c7_self_parent_virtual_rejected groups7 [] cfg7 { name := 0 }
      (by decide) (by decide) (by decide)⟩

/-- The blocking wait resumes at the first in-range sample and at no
earlier one: whenever the search returns an index, the temperature
there lies in `[lo, hi]` and every sample from `start` before it lies
outside. -/
theorem temperatureWaitFirst_spec (temp : Nat → Int) (lo hi : Int) :
    ∀ (fuel start i : Nat),
      temperatureWaitFirst temp lo hi fuel start = some i →
        (lo ≤ temp i ∧ temp i ≤ hi)
        ∧ ∀ j, start ≤ j → j < i → ¬ (lo ≤ temp j ∧ temp j ≤ hi) := by
  intro fuel
  induction fuel with
  | zero => intro start i h; simp [temperatureWaitFirst] at h
  | succ n ih =>
    intro start i h
    simp only [temperatureWaitFirst] at h
    split at h
    · obtain rfl : start = i := by simpa using h
      exact ⟨by assumption, fun j hj1 hj2 => absurd (le_trans hj1 (le_of_lt hj2))
        (by omega)⟩
    · obtain ⟨hin, hmin⟩ := ih (start + 1) i h
      refine ⟨hin, fun j hj1 hj2 hj3 => ?_⟩
      rcases Nat.eq_or_lt_of_le hj1 with rfl | hlt
      · exact absurd hj3 (by assumption)
      · exact hmin j hlt hj2 hj3

/-- C9 counterexample: for a heater with a set target of 35 °C the
operation returns the world unchanged — it issues no wait at all —
even though the heater's instantaneous temperature (10 °C) is far
outside the ± 2 °C band, so it does not "block until within
tolerance" for every heater with a set target. -/
theorem c9_no_wait_at_low_target_counterexample :
    env9.targetTemp "extruder" = 35
    ∧ Temperature_wait_with_tolerance env9 0 "extruder" 2 w9 = w9
    ∧ ¬ ((35 : Int) - 2 ≤ env9.measuredTemp "extruder"
          ∧ env9.measuredTemp "extruder" ≤ 35 + 2) := by
  refine ⟨rfl, by rfl, by decide⟩

/-- C9 amended: the temperature-wait-with-tolerance operation waits
only when the named heater's target exceeds 40 °C; in that case it
issues the blocking wait with bounds target ± tolerance, and that
wait returns exactly at the first moment the instantaneous
temperature is within the band (for a target of 40 °C or below the
operation returns immediately without waiting, leaving the world
unchanged). -/
theorem c9_wait_with_tolerance_amended (env : Env) (curtime : Rat)
    (name : String) (tolerance : Int) (w : World)
    (h : 40 < env.targetTemp name) :
    Temperature_wait_with_tolerance env curtime name tolerance w
      = emit (Effect.tempWait name (env.targetTemp name - tolerance)
          (env.targetTemp name + tolerance)) w
    ∧ (∀ (temp : Nat → Int) (fuel start i : Nat),
        temperatureWaitFirst temp (env.targetTemp name - tolerance)
            (env.targetTemp name + tolerance) fuel start = some i →
          (env.targetTemp name - tolerance ≤ temp i
            ∧ temp i ≤ env.targetTemp name + tolerance)
          ∧ ∀ j, start ≤ j → j < i →
              ¬ (env.targetTemp name - tolerance ≤ temp j
                  ∧ temp j ≤ env.targetTemp name + tolerance))
    ∧ (∀ (env' : Env) (w' : World), env'.targetTemp name ≤ 40 →
        Temperature_wait_with_tolerance env' curtime name tolerance w' = w') := by
  refine ⟨?_, fun temp => temperatureWaitFirst_spec temp _ _, ?_⟩
  · simp [Temperature_wait_with_tolerance, h]
  · intro env' w' h'
    simp [Temperature_wait_with_tolerance, Int.not_lt.mpr h']

theorem c9_wait_with_tolerance_amended_witness :
    (40 : Int) < env9b.targetTemp "extruder"
    ∧ (Temperature_wait_with_tolerance env9b 0 "extruder" 2 w9
        = emit (Effect.tempWait "extruder" (env9b.targetTemp "extruder" - 2)
            (env9b.targetTemp "extruder" + 2)) w9
      ∧ (∀ (temp : Nat → Int) (fuel start i : Nat),
          temperatureWaitFirst temp (env9b.targetTemp "extruder" - 2)
              (env9b.targetTemp "extruder" + 2) fuel start = some i →
            (env9b.targetTemp "extruder" - 2 ≤ temp i
              ∧ temp i ≤ env9b.targetTemp "extruder" + 2)
            ∧ ∀ j, start ≤ j → j < i →
                ¬ (env9b.targetTemp "extruder" - 2 ≤ temp j
                    ∧ temp j ≤ env9b.targetTemp "extruder" + 2))
      ∧ (∀ (env' : Env) (w' : World), env'.targetTemp "extruder" ≤ 40 →
          Temperature_wait_with_tolerance env' 0 "extruder" 2 w' = w')) :=
  ⟨by decide, c9_wait_with_tolerance_amended env9b 0 "extruder" 2 w9 (by decide)⟩

/-- C10: `Dropoff` ignores its `force_virtual_unload` argument and the
tool's `unload_virtual_at_dropoff` setting, never runs UnloadVirtual,
and leaves every tool's `virtual_loaded` unchanged: its hook trace is
exactly one dropoff hook (or nothing when the printer is unhomed). -/
theorem c10_dropoff_never_unloads_virtual (tc : ToolCfg) (b b' flag : Bool)
    (w : World) :
    Dropoff tc b w = Dropoff tc b' w
    ∧ Dropoff { tc with unload_virtual_at_dropoff := flag } b w = Dropoff tc b w
    ∧ (∀ i, (getToolState (Dropoff tc b w).toolStates i).virtual_loaded
        = (getToolState w.toolStates i).virtual_loaded)
    ∧ hookEvents (Dropoff tc b w).effects
        = hookEvents w.effects
          ++ (if (PrinterIsHomedForToolchange 0 w).1 = true
              then [Effect.dropoffHook tc.name] else []) := by
  have hph : PrinterIsHomedForToolchange 0 w
      = (decide (w.homed.x ∧ w.homed.y ∧ w.homed.z), w) := by
    unfold PrinterIsHomedForToolchange
    split_ifs with h <;> (try simp [h]) <;> omega
  refine ⟨rfl, rfl, ?_, ?_⟩ <;>
    · unfold Dropoff
      rw [hph]
      cases hd : decide (w.homed.x ∧ w.homed.y ∧ w.homed.z) <;>
        cases htc : tc.fan <;>
        simp [htc]

/-- C2 evaluation at the failing input: with virtual tool T0 (parent
T1) mounted, selecting the parentless physical tool T5
(`physical_parent_id = -1`) runs UnloadVirtual(T0) and then
Pickup(T5) — no Dropoff hook ever runs, because the source's
`int(self.physical_parent_id == TOOL_UNLOCKED or
self.physical_parent_id)` turns the `-1` sentinel into `1`, which
happens to equal T0's parent id, so the swap is misclassified as a
same-parent virtual swap.  This contradicts the source's own comment
("If the next tool is not another virtual tool on the same physical
tool") and the spec. -/
theorem c2_dropoff_skipped_eval :
    selectToolActual cfg2 env0 c2B none c2w = Except.ok c2w'
    ∧ hookEvents c2w'.effects
        = [Effect.unloadVirtualHook 0, Effect.pickupHook 5]
    ∧ c2w'.tool_current = 5
    ∧ dropoffCompareLhs c2B.physical_parent_id
        = c2A.physical_parent_id := by
  refine ⟨by rfl, by rfl, by rfl, by decide⟩

/-- A `set_timer(0, …)` call on an idle timer (the call the source's
comments describe as stopping the timer) in fact arms it: the clamp
`max(duration, 0.5)` makes the duration 0.5, so the timer is
scheduled at `now + 0.5` and marked counting down. -/
theorem set_timer_arms_at_zero (ts : TimerState) (caller : Int) (now : Rat)
    (h : ts.inside_timer = false) :
    set_timer ts 0 caller now
      = { ts with duration := 1/2
                  last_virtual_tool_using_physical_timer := some caller
                  nextwake := some (now + 1/2)
                  sched_wake := some (now + 1/2)
                  counting_down := true } := by
  have hmax : max (0 : Rat) (1/2) = 1/2 := by norm_num
  have hne : ¬ ((1 : Rat)/2 = 0) := by norm_num
  simp [set_timer, hmax, h, hne]

/-- C3 evaluation at the failing input: a transition OFF → ACTIVE
pushes the active temperature exactly once, but — because
`set_timer` clamps every duration to at least 0.5 s — the two
`set_timer(0, …)` calls that the source's comments describe as
stopping the timers instead arm both timers: they end up counting
down with an absolute wake time `now + 0.5`, so both will fire. -/
theorem c3_active_timers_armed_eval :
    (getToolState c3w'.toolStates 0).heater_state = 2
    ∧ c3w'.effects = [Effect.setTemp "extruder" 210]
    ∧ getTimerState c3w'.standbyTimers 0
        = { duration := 1/2, counting_down := true,
            nextwake := some ((100 : Rat) + 1/2),
            sched_wake := some ((100 : Rat) + 1/2),
            last_virtual_tool_using_physical_timer := some 0 }
    ∧ getTimerState c3w'.powerdownTimers 0
        = { duration := 1/2, counting_down := true,
            nextwake := some ((100 : Rat) + 1/2),
            sched_wake := some ((100 : Rat) + 1/2),
            last_virtual_tool_using_physical_timer := some 0 } := by
  have hst : set_timer ({} : TimerState) 0 0 100
      = { duration := 1/2, counting_down := true,
          nextwake := some ((100 : Rat) + 1/2),
          sched_wake := some ((100 : Rat) + 1/2),
          last_virtual_tool_using_physical_timer := some 0 } := by
    rw [set_timer_arms_at_zero ({} : TimerState) 0 100 rfl]
  refine ⟨?_, ?_, ?_, ?_⟩ <;>
    simp [c3w', set_heater, c3tool, c3w, env3, set_heater_resolved_state,
      set_heater_param_pushes, set_heater_standby_rearm, set_heater_state_change,
      timerOwner, modifyStandbyTimer, modifyPowerdownTimer, writeToolState, emit,
      getToolState, getTimerState, setToolState, setTimerState, hst]

/-- C8 evaluation at the failing input: `Pickup` consults
`PrinterIsHomedForToolchange` with no argument, i.e. with the default
policy 0, so a tool whose own `lazy_home_when_parking` is 1 still
fails with the not-homed error on a machine with only Z homed — a
state in which the tool's policy, had it been passed (as the
function's parameter and Pickup's own error message intend), would
home X and Y and let the pickup proceed. -/
theorem c8_lazy_home_policy_ignored_eval :
    Pickup c8tool c8w = Except.error (SErr.notHomed, c8w)
    ∧ c8tool.lazy_home_when_parking = 1
    ∧ (PrinterIsHomedForToolchange c8tool.lazy_home_when_parking c8w).1 = true := by
  refine ⟨by rfl, by rfl, by rfl⟩
